import Mathlib

/-!
Shallow embedding of the Windowed List Engine of `src/src/examples/Simple.tsx`
(repository kinzaz/virtual-scroll).  The file holds two variants of one hook:
a dynamic-height variant (`useFixedSizeList` with `itemHeight?`/`estimateItemHeight?`
options, a measurement cache and a linear scan) and a fixed-height variant
(`useFixedSizeList` with a constant `itemHeight` and a closed-form range).

Pixel quantities (scroll offset, viewport height, item heights) are embedded as
`Int`; `Math.floor(a / b)` and `Math.ceil(a / b)` on nonnegative divisors are
embedded as floor/ceiling integer division.  The DOM / React plumbing (effects,
listeners, timers) is out of scope; the pure window computation inside the
`useMemo`, the props validation and the measurement callback are embedded
faithfully, with the component state (`scrollTop`, `listHeight`,
`measurementCache`) passed explicitly.
-/

namespace VirtualScroll

/-- Embedding of `Math.floor(a / b)`: floor division on integers
(`Int.fdiv` rounds toward negative infinity, as `Math.floor` does). -/
def jsFloorDiv (a b : Int) : Int := a.fdiv b

/-- Embedding of `Math.ceil(a / b)`: ceiling division on integers,
written as the reflection of floor division. -/
def jsCeilDiv (a b : Int) : Int := -((-a).fdiv b)

/-- Embedding of `validateProps` (`Simple.tsx` lines 13-22): throws
`"You must pass either itemHeight or estimateItemHeight props"` exactly when
both the `itemHeight` and the `estimateItemHeight` props are absent
(`!itemHeight && !estimateItemHeight`; both props are functions, which are
truthy in JS exactly when present). -/
def validateProps (itemHeight : Option (Int → Int))
    (estimateItemHeight : Option (Int → Int)) : Except String Unit :=
  if itemHeight.isNone && estimateItemHeight.isNone then
    Except.error "You must pass either itemHeight or estimateItemHeight props"
  else
    Except.ok ()

/-- Embedding of the closure `getItemHeight` (`Simple.tsx` lines 129-137):
if the `itemHeight` prop is present it wins; otherwise the measurement cache is
consulted at the item's key, falling back to the estimator.  (`validateProps`
guarantees that the estimator is present whenever `itemHeight` is absent, so
the estimator is passed here as a total function, standing for the non-null
assertion `estimateItemHeight!`.) -/
def getItemHeight {K : Type} (itemHeight : Option (Int → Int)) (getItemKey : Int → K)
    (measurementCache : K → Option Int) (estimateItemHeight : Int → Int)
    (index : Int) : Int :=
  match itemHeight with
  | some f => f index
  | none =>
    match measurementCache (getItemKey index) with
    | some h => h
    | none => estimateItemHeight index

/-- Row descriptor built by the dynamic scan (`Simple.tsx` lines 150-155). -/
structure Row (K : Type) where
  key : K
  index : Nat
  height : Int
  offsetTop : Int
deriving DecidableEq

/-- The mutable locals of the dynamic scan (`Simple.tsx` lines 142-145):
`startIndex` and `endIndex` start at the sentinel `-1`, `totalHeight` at `0`,
`allItems` is filled slot by slot in index order. -/
structure DynState (K : Type) where
  startIndex : Int
  endIndex : Int
  totalHeight : Int
  allItems : List (Row K)
deriving DecidableEq

/-- One iteration of the dynamic scan loop body (`Simple.tsx` lines 147-166):
build the row with `offsetTop` equal to the accumulated `totalHeight`, add its
height to `totalHeight`, record the row, and set `startIndex` (resp. `endIndex`)
if still unset and the row's bottom edge passes the viewport test. -/
def dynStep {K : Type} (getItemKey : Int → K) (gih : Int → Int)
    (rangeStart rangeEnd : Int) (itemsCount overscan : Nat)
    (s : DynState K) (i : Nat) : DynState K :=
  let row : Row K :=
    { key := getItemKey i, index := i, height := gih i, offsetTop := s.totalHeight }
  let totalHeight := s.totalHeight + row.height
  let startIndex :=
    if s.startIndex = -1 ∧ rangeStart < row.offsetTop + row.height then
      max 0 ((i : Int) - (overscan : Int))
    else s.startIndex
  let endIndex :=
    if s.endIndex = -1 ∧ rangeEnd ≤ row.offsetTop + row.height then
      min ((itemsCount : Int) - 1) ((i : Int) + (overscan : Int))
    else s.endIndex
  { startIndex := startIndex, endIndex := endIndex, totalHeight := totalHeight,
    allItems := s.allItems ++ [row] }

/-- The dynamic scan after `m` iterations of `for (let i = 0; i < itemsCount; i++)`
(`Simple.tsx` lines 147-166); the full loop is `dynLoop … itemsCount`. -/
def dynLoop {K : Type} (getItemKey : Int → K) (gih : Int → Int)
    (rangeStart rangeEnd : Int) (itemsCount overscan : Nat) : Nat → DynState K
  | 0 => { startIndex := -1, endIndex := -1, totalHeight := 0, allItems := [] }
  | m + 1 =>
    dynStep getItemKey gih rangeStart rangeEnd itemsCount overscan
      (dynLoop getItemKey gih rangeStart rangeEnd itemsCount overscan m) m

/-- JS `Array.prototype.slice(start, stop)` with possibly negative bounds:
negative bounds count from the end of the array, and both bounds are clamped
to `[0, length]`. -/
def jsSlice {α : Type} (l : List α) (start stop : Int) : List α :=
  let len : Int := (l.length : Int)
  let s := if start < 0 then max (len + start) 0 else min start len
  let e := if stop < 0 then max (len + stop) 0 else min stop len
  (l.take e.toNat).drop s.toNat

/-- The value returned by the dynamic `useMemo` (`Simple.tsx` line 170). -/
structure DynResult (K : Type) where
  virtualItems : List (Row K)
  startIndex : Int
  endIndex : Int
  allItems : List (Row K)
  totalHeight : Int
deriving DecidableEq

/-- Embedding of the whole dynamic `useMemo` body (`Simple.tsx` lines 127-170):
`rangeStart = scrollTop`, `rangeEnd = scrollTop + listHeight`, run the scan
over all `itemsCount` indices, and slice `allItems` from `startIndex` to
`endIndex + 1` for the visible rows. -/
def dynWindow {K : Type} (getItemKey : Int → K) (gih : Int → Int)
    (itemsCount overscan : Nat) (scrollTop listHeight : Int) : DynResult K :=
  let rangeStart := scrollTop
  let rangeEnd := scrollTop + listHeight
  let s := dynLoop getItemKey gih rangeStart rangeEnd itemsCount overscan itemsCount
  { virtualItems := jsSlice s.allItems s.startIndex (s.endIndex + 1),
    startIndex := s.startIndex, endIndex := s.endIndex,
    allItems := s.allItems, totalHeight := s.totalHeight }

/-- Sum of the first `n` item heights, `gih 0 + … + gih (n-1)`; the offset of
row `n` and, for `n = itemsCount`, the total height of the dynamic list. -/
def prefixHeight (gih : Int → Int) (n : Nat) : Int :=
  ((List.range n).map (fun (i : Nat) => gih (i : Int))).sum

/-- The rendered element as the measurement callback sees it: the value of its
`data-index` attribute (`none` when `getAttribute` returns null) and the height
of its bounding client rect. -/
structure ElementModel where
  dataIndex : Option String
  rectHeight : Int
deriving DecidableEq

/-- Embedding of `parseInt(s, 10)`: skip leading spaces, read an optional sign
and then the maximal run of leading decimal digits; `none` stands for `NaN`
(no digits at all). -/
def jsParseInt (s : String) : Option Int :=
  let cs := s.toList.dropWhile (fun c => c = ' ')
  match cs with
  | '-' :: rest =>
    let ds := rest.takeWhile Char.isDigit
    if ds.isEmpty then none
    else some (-(ds.foldl (fun acc c => 10 * acc + ((c.toNat : Int) - 48)) 0))
  | '+' :: rest =>
    let ds := rest.takeWhile Char.isDigit
    if ds.isEmpty then none
    else some (ds.foldl (fun acc c => 10 * acc + ((c.toNat : Int) - 48)) 0)
  | other =>
    let ds := other.takeWhile Char.isDigit
    if ds.isEmpty then none
    else some (ds.foldl (fun acc c => 10 * acc + ((c.toNat : Int) - 48)) 0)

/-- Embedding of the `measureElement` callback (`Simple.tsx` lines 182-200) as
a function from the old measurement cache to the new one: a null element or an
unparsable `data-index` attribute (`element?.getAttribute("data-index") || ""`
followed by a `Number.isNaN(parseInt …)` check and a `console.error`) leaves
the cache untouched; otherwise the measured height is stored under the item's
key (`{ ...cache, [key]: size.height }`). -/
def measureElement {K : Type} [DecidableEq K] (getItemKey : Int → K)
    (cache : K → Option Int) (element : Option ElementModel) : K → Option Int :=
  match element with
  | none => cache
  | some el =>
    let indexAttribute := el.dataIndex.getD ""
    match jsParseInt indexAttribute with
    | none => cache
    | some index => Function.update cache (getItemKey index) (some el.rectHeight)

/-- Virtual item of the fixed-height variant (`Simple.tsx` lines 383-386). -/
structure FixedItem where
  index : Int
  offsetTop : Int
deriving DecidableEq

/-- The value returned by the fixed-height hook (`Simple.tsx` lines 394-400),
restricted to its pure fields. -/
structure FixedResult where
  virtualItems : List FixedItem
  totalHeight : Int
  startIndex : Int
  endIndex : Int
deriving DecidableEq

/-- Embedding of the fixed-height `useMemo` plus `totalHeight`
(`Simple.tsx` lines 370-392): `startIndex = max(0, floor(scrollTop/itemHeight) - overscan)`,
`endIndex = min(itemsCount - 1, ceil((scrollTop + listHeight)/itemHeight) + overscan)`,
virtual items for `index = startIndex … endIndex` with `offsetTop = index * itemHeight`,
and `totalHeight = itemHeight * itemsCount`. -/
def fixedWindow (itemHeight : Int) (itemsCount overscan : Nat)
    (scrollTop listHeight : Int) : FixedResult :=
  let rangeStart := scrollTop
  let rangeEnd := scrollTop + listHeight
  let startIndex := max 0 (jsFloorDiv rangeStart itemHeight - (overscan : Int))
  let endIndex :=
    min ((itemsCount : Int) - 1) (jsCeilDiv rangeEnd itemHeight + (overscan : Int))
  let virtualItems := (List.range (endIndex + 1 - startIndex).toNat).map
    (fun (k : Nat) =>
      { index := startIndex + (k : Int),
        offsetTop := (startIndex + (k : Int)) * itemHeight : FixedItem })
  { virtualItems := virtualItems,
    totalHeight := itemHeight * (itemsCount : Int),
    startIndex := startIndex, endIndex := endIndex }

/-- The window state of a hook instance whose `getScrollElement` yields null:
all three layout effects return before registering any observer or listener, so
`scrollTop` and `listHeight` keep their `useState` initial value `0`.  The
fixed-height computation still runs on that state. -/
def unattachedFixedWindow (itemHeight : Int) (itemsCount overscan : Nat) : FixedResult :=
  fixedWindow itemHeight itemsCount overscan 0 0

/-- Same for the dynamic variant: the memo runs with `scrollTop = 0` and
`listHeight = 0`. -/
def unattachedDynWindow {K : Type} (getItemKey : Int → K) (gih : Int → Int)
    (itemsCount overscan : Nat) : DynResult K :=
  dynWindow getItemKey gih itemsCount overscan 0 0

/-! ### Arithmetic facts about the two division embeddings -/

theorem jsFloorDiv_eq_ediv (a : Int) {b : Int} (hb : 0 < b) :
    jsFloorDiv a b = a / b := by
  unfold jsFloorDiv
  exact Int.fdiv_eq_ediv a hb.le

theorem jsCeilDiv_eq_neg_ediv_neg (a : Int) {b : Int} (hb : 0 < b) :
    jsCeilDiv a b = -((-a) / b) := by
  unfold jsCeilDiv
  rw [Int.fdiv_eq_ediv _ hb.le]

theorem jsFloorDiv_eq_floor (a : Int) {b : Int} (hb : 0 < b) :
    jsFloorDiv a b = ⌊(a : ℚ) / (b : ℚ)⌋ := by
  obtain ⟨m, rfl⟩ : ∃ m : ℕ, b = (m : ℤ) := ⟨b.toNat, (Int.toNat_of_nonneg hb.le).symm⟩
  rw [jsFloorDiv_eq_ediv a hb, show (((m : ℤ) : ℚ)) = ((m : ℚ)) by push_cast; ring,
    Rat.floor_intCast_div_natCast a m]

theorem jsCeilDiv_eq_ceil (a : Int) {b : Int} (hb : 0 < b) :
    jsCeilDiv a b = ⌈(a : ℚ) / (b : ℚ)⌉ := by
  unfold jsCeilDiv
  have h1 : Int.fdiv (-a) b = ⌊((-a : Int) : ℚ) / (b : ℚ)⌋ := by
    rw [← jsFloorDiv_eq_floor (-a) hb]; rfl
  rw [h1]
  push_cast
  rw [neg_div, Int.floor_neg, neg_neg]

theorem jsFloorDiv_mono {a₁ a₂ b : Int} (hb : 0 < b) (h : a₁ ≤ a₂) :
    jsFloorDiv a₁ b ≤ jsFloorDiv a₂ b := by
  rw [jsFloorDiv_eq_ediv _ hb, jsFloorDiv_eq_ediv _ hb]
  exact Int.ediv_le_ediv hb h

theorem jsCeilDiv_mono {a₁ a₂ b : Int} (hb : 0 < b) (h : a₁ ≤ a₂) :
    jsCeilDiv a₁ b ≤ jsCeilDiv a₂ b := by
  rw [jsCeilDiv_eq_neg_ediv_neg _ hb, jsCeilDiv_eq_neg_ediv_neg _ hb]
  have := Int.ediv_le_ediv hb (neg_le_neg h)
  omega

theorem jsFloorDiv_le_jsCeilDiv {a₁ a₂ b : Int} (hb : 0 < b) (h : a₁ ≤ a₂) :
    jsFloorDiv a₁ b ≤ jsCeilDiv a₂ b := by
  rw [jsFloorDiv_eq_ediv _ hb, jsCeilDiv_eq_neg_ediv_neg _ hb]
  have h1 := Int.ediv_mul_le a₁ (ne_of_gt hb)
  have h2 := Int.ediv_mul_le (-a₂) (ne_of_gt hb)
  nlinarith [h1, h2]

theorem jsCeilDiv_nonneg {a b : Int} (hb : 0 < b) (ha : 0 ≤ a) :
    0 ≤ jsCeilDiv a b := by
  rw [jsCeilDiv_eq_neg_ediv_neg _ hb]
  have h1 : (-a) / b ≤ 0 / b := Int.ediv_le_ediv hb (by omega)
  rw [Int.zero_ediv] at h1
  omega

theorem jsFloorDiv_lt_of_lt_mul {a b n : Int} (hb : 0 < b) (h : a < b * n) :
    jsFloorDiv a b < n := by
  rw [jsFloorDiv_eq_ediv _ hb]
  exact (Int.ediv_lt_iff_lt_mul hb).mpr (by nlinarith)

theorem jsFloorDiv_nonneg {a b : Int} (hb : 0 < b) (ha : 0 ≤ a) :
    0 ≤ jsFloorDiv a b := by
  rw [jsFloorDiv_eq_ediv _ hb]
  exact Int.ediv_nonneg ha hb.le

/-! ### Unfolding lemmas for the scan step and the fixed-height window -/

theorem dynStep_startIndex {K : Type} (gk : Int → K) (gih : Int → Int)
    (rS rE : Int) (n ov : Nat) (s : DynState K) (i : Nat) :
    (dynStep gk gih rS rE n ov s i).startIndex =
      if s.startIndex = -1 ∧ rS < s.totalHeight + gih i then
        max 0 ((i : Int) - (ov : Int))
      else s.startIndex := rfl

theorem dynStep_endIndex {K : Type} (gk : Int → K) (gih : Int → Int)
    (rS rE : Int) (n ov : Nat) (s : DynState K) (i : Nat) :
    (dynStep gk gih rS rE n ov s i).endIndex =
      if s.endIndex = -1 ∧ rE ≤ s.totalHeight + gih i then
        min ((n : Int) - 1) ((i : Int) + (ov : Int))
      else s.endIndex := rfl

theorem dynStep_totalHeight {K : Type} (gk : Int → K) (gih : Int → Int)
    (rS rE : Int) (n ov : Nat) (s : DynState K) (i : Nat) :
    (dynStep gk gih rS rE n ov s i).totalHeight = s.totalHeight + gih i := rfl

theorem dynStep_allItems {K : Type} (gk : Int → K) (gih : Int → Int)
    (rS rE : Int) (n ov : Nat) (s : DynState K) (i : Nat) :
    (dynStep gk gih rS rE n ov s i).allItems =
      s.allItems ++
        [{ key := gk i, index := i, height := gih i, offsetTop := s.totalHeight }] := rfl

theorem fixedWindow_startIndex (itemHeight : Int) (itemsCount overscan : Nat)
    (scrollTop listHeight : Int) :
    (fixedWindow itemHeight itemsCount overscan scrollTop listHeight).startIndex =
      max 0 (jsFloorDiv scrollTop itemHeight - (overscan : Int)) := rfl

theorem fixedWindow_endIndex (itemHeight : Int) (itemsCount overscan : Nat)
    (scrollTop listHeight : Int) :
    (fixedWindow itemHeight itemsCount overscan scrollTop listHeight).endIndex =
      min ((itemsCount : Int) - 1)
        (jsCeilDiv (scrollTop + listHeight) itemHeight + (overscan : Int)) := rfl

theorem fixedWindow_totalHeight (itemHeight : Int) (itemsCount overscan : Nat)
    (scrollTop listHeight : Int) :
    (fixedWindow itemHeight itemsCount overscan scrollTop listHeight).totalHeight =
      itemHeight * (itemsCount : Int) := rfl

/-! ### Invariants of the dynamic scan -/

theorem prefixHeight_succ (gih : Int → Int) (n : Nat) :
    prefixHeight gih (n + 1) = prefixHeight gih n + gih (n : Int) := by
  unfold prefixHeight
  rw [List.range_succ, List.map_append, List.sum_append]
  simp

theorem dynLoop_totalHeight {K : Type} (gk : Int → K) (gih : Int → Int)
    (rS rE : Int) (n ov : Nat) (m : Nat) :
    (dynLoop gk gih rS rE n ov m).totalHeight = prefixHeight gih m := by
  induction m with
  | zero => rfl
  | succ m ih =>
    rw [dynLoop, dynStep_totalHeight, ih, prefixHeight_succ]

theorem dynLoop_allItems {K : Type} (gk : Int → K) (gih : Int → Int)
    (rS rE : Int) (n ov : Nat) (m : Nat) :
    (dynLoop gk gih rS rE n ov m).allItems =
      (List.range m).map (fun (i : Nat) =>
        { key := gk (i : Int), index := i, height := gih (i : Int),
          offsetTop := prefixHeight gih i : Row K }) := by
  induction m with
  | zero => rfl
  | succ m ih =>
    rw [dynLoop, dynStep_allItems, ih, dynLoop_totalHeight, List.range_succ,
      List.map_append]
    simp

theorem dynLoop_startIndex_of_no_trigger {K : Type} (gk : Int → K) (gih : Int → Int)
    (rS rE : Int) (n ov : Nat) (m : Nat)
    (hall : ∀ i, i < m → prefixHeight gih (i + 1) ≤ rS) :
    (dynLoop gk gih rS rE n ov m).startIndex = -1 := by
  induction m with
  | zero => rfl
  | succ m ih =>
    have hm := ih (fun i hi => hall i (Nat.lt_succ_of_lt hi))
    rw [dynLoop, dynStep_startIndex, dynLoop_totalHeight, hm]
    have hlast := hall m (Nat.lt_succ_self m)
    rw [prefixHeight_succ] at hlast
    rw [if_neg]
    intro hc
    omega

theorem dynLoop_endIndex_of_no_trigger {K : Type} (gk : Int → K) (gih : Int → Int)
    (rS rE : Int) (n ov : Nat) (m : Nat)
    (hall : ∀ i, i < m → prefixHeight gih (i + 1) < rE) :
    (dynLoop gk gih rS rE n ov m).endIndex = -1 := by
  induction m with
  | zero => rfl
  | succ m ih =>
    have hm := ih (fun i hi => hall i (Nat.lt_succ_of_lt hi))
    rw [dynLoop, dynStep_endIndex, dynLoop_totalHeight, hm]
    have hlast := hall m (Nat.lt_succ_self m)
    rw [prefixHeight_succ] at hlast
    rw [if_neg]
    intro hc
    omega

theorem dynLoop_startIndex_of_first_trigger {K : Type} (gk : Int → K) (gih : Int → Int)
    (rS rE : Int) (n ov : Nat) (m : Nat) (i₀ : Nat) (hi : i₀ < m)
    (ht : rS < prefixHeight gih (i₀ + 1))
    (hmin : ∀ j, j < i₀ → prefixHeight gih (j + 1) ≤ rS) :
    (dynLoop gk gih rS rE n ov m).startIndex = max 0 ((i₀ : Int) - (ov : Int)) := by
  induction m with
  | zero => omega
  | succ m ih =>
    rcases Nat.lt_succ_iff_lt_or_eq.mp hi with h | h
    · rw [dynLoop, dynStep_startIndex, ih h]
      rw [if_neg]
      intro hc
      have h0 : (0 : Int) ≤ max 0 ((i₀ : Int) - (ov : Int)) := le_max_left 0 _
      omega
    · subst h
      have hprev := dynLoop_startIndex_of_no_trigger gk gih rS rE n ov i₀ hmin
      rw [dynLoop, dynStep_startIndex, dynLoop_totalHeight, hprev]
      rw [prefixHeight_succ] at ht
      rw [if_pos ⟨rfl, ht⟩]

theorem dynLoop_endIndex_of_first_trigger {K : Type} (gk : Int → K) (gih : Int → Int)
    (rS rE : Int) (n ov : Nat) (hn : 0 < n) (m : Nat) (i₁ : Nat) (hi : i₁ < m)
    (ht : rE ≤ prefixHeight gih (i₁ + 1))
    (hmin : ∀ j, j < i₁ → prefixHeight gih (j + 1) < rE) :
    (dynLoop gk gih rS rE n ov m).endIndex =
      min ((n : Int) - 1) ((i₁ : Int) + (ov : Int)) := by
  induction m with
  | zero => omega
  | succ m ih =>
    rcases Nat.lt_succ_iff_lt_or_eq.mp hi with h | h
    · rw [dynLoop, dynStep_endIndex, ih h]
      rw [if_neg]
      intro hc
      have h1 : (0 : Int) ≤ (i₁ : Int) + (ov : Int) := by positivity
      have h2 : min ((n : Int) - 1) ((i₁ : Int) + (ov : Int)) = -1 := hc.1
      omega
    · subst h
      have hprev := dynLoop_endIndex_of_no_trigger gk gih rS rE n ov i₁ hmin
      rw [dynLoop, dynStep_endIndex, dynLoop_totalHeight, hprev]
      rw [prefixHeight_succ] at ht
      rw [if_pos ⟨rfl, ht⟩]

/-! ### Facts about `jsSlice` -/

theorem jsSlice_stop_zero {α : Type} (l : List α) (start : Int) :
    jsSlice l start 0 = [] := by
  unfold jsSlice
  simp

theorem dynWindow_virtualItems_of_endIndex_neg_one {K : Type} (gk : Int → K)
    (gih : Int → Int) (n ov : Nat) (s v : Int)
    (he : (dynWindow gk gih n ov s v).endIndex = -1) :
    (dynWindow gk gih n ov s v).virtualItems = [] := by
  have he2 : (dynLoop gk gih s (s + v) n ov n).endIndex = -1 := he
  show jsSlice _ _ ((dynLoop gk gih s (s + v) n ov n).endIndex + 1) = []
  rw [he2]
  exact jsSlice_stop_zero _ _

theorem dynLoop_allItems_length {K : Type} (gk : Int → K) (gih : Int → Int)
    (rS rE : Int) (n ov : Nat) (m : Nat) :
    (dynLoop gk gih rS rE n ov m).allItems.length = m := by
  rw [dynLoop_allItems]
  simp

theorem jsSlice_length_of_nonneg {α : Type} (l : List α) (a b : Int)
    (ha : 0 ≤ a) (hb : 0 ≤ b) :
    (jsSlice l a b).length
      = (min b (l.length : Int)).toNat - (min a (l.length : Int)).toNat := by
  simp only [jsSlice]
  rw [if_neg (not_lt.mpr ha), if_neg (not_lt.mpr hb)]
  simp only [List.length_drop, List.length_take]
  omega

theorem fixedWindow_virtualItems_length (itemHeight : Int) (itemsCount overscan : Nat)
    (scrollTop listHeight : Int) :
    (fixedWindow itemHeight itemsCount overscan scrollTop listHeight).virtualItems.length
      = ((fixedWindow itemHeight itemsCount overscan scrollTop listHeight).endIndex + 1
          - (fixedWindow itemHeight itemsCount overscan scrollTop listHeight).startIndex).toNat := by
  simp only [fixedWindow, List.length_map, List.length_range]

theorem jsFloorDiv_zero_left (b : Int) : jsFloorDiv 0 b = 0 := by
  unfold jsFloorDiv
  exact Int.zero_fdiv b

theorem jsCeilDiv_zero_left (b : Int) : jsCeilDiv 0 b = 0 := by
  unfold jsCeilDiv
  rw [neg_zero, Int.zero_fdiv, neg_zero]

theorem prefixHeight_one (gih : Int → Int) : prefixHeight gih 1 = gih 0 := by
  rw [prefixHeight_succ]
  simp [prefixHeight]

/-! ### Claim theorems -/

/-- C1: in fixed-height mode, for every scrollOffset, viewportHeight,
itemHeight > 0, itemsCount and overscan, the computed range equals the closed
form `startIndex = max(0, floor(scrollOffset/itemHeight) - overscan)`,
`endIndex = min(itemsCount-1, ceil((scrollOffset+viewportHeight)/itemHeight) + overscan)`,
`totalHeight = itemHeight * itemsCount`, each returned row has
`offsetTop = index * itemHeight`; and for itemsCount=10000, itemHeight=40,
viewportHeight=600, overscan=3, scrollOffset=0 the result is startIndex=0,
endIndex=18, totalHeight=400000.  Floor and ceiling are stated over ℚ, so the
theorem identifies the integer-division embedding with the mathematical
floor/ceiling of the exact quotient. -/
theorem C1_fixed_mode_closed_form (scrollOffset viewportHeight itemHeight : Int)
    (itemsCount overscan : Nat) (hh : 0 < itemHeight) :
    (fixedWindow itemHeight itemsCount overscan scrollOffset viewportHeight).startIndex
        = max 0 (⌊(scrollOffset : ℚ) / (itemHeight : ℚ)⌋ - (overscan : Int))
    ∧ (fixedWindow itemHeight itemsCount overscan scrollOffset viewportHeight).endIndex
        = min ((itemsCount : Int) - 1)
            (⌈((scrollOffset + viewportHeight : Int) : ℚ) / (itemHeight : ℚ)⌉ + (overscan : Int))
    ∧ (fixedWindow itemHeight itemsCount overscan scrollOffset viewportHeight).totalHeight
        = itemHeight * (itemsCount : Int)
    ∧ (∀ item ∈ (fixedWindow itemHeight itemsCount overscan
          scrollOffset viewportHeight).virtualItems,
        item.offsetTop = item.index * itemHeight)
    ∧ (fixedWindow 40 10000 3 0 600).startIndex = 0
    ∧ (fixedWindow 40 10000 3 0 600).endIndex = 18
    ∧ (fixedWindow 40 10000 3 0 600).totalHeight = 400000 := by
  refine ⟨?_, ?_, rfl, ?_, by decide, by decide, by decide⟩
  · rw [fixedWindow_startIndex, jsFloorDiv_eq_floor _ hh]
  · rw [fixedWindow_endIndex, jsCeilDiv_eq_ceil _ hh]
  · intro item hmem
    simp only [fixedWindow, List.mem_map] at hmem
    obtain ⟨k, hk, rfl⟩ := hmem
    rfl

/-- Witness for C1 at the spec scenario itemsCount=10000, itemHeight=40,
viewportHeight=600, overscan=3, scrollOffset=0. -/
theorem C1_fixed_mode_closed_form_witness :
    (0 : Int) < 40
    ∧ (fixedWindow 40 10000 3 0 600).startIndex
        = max 0 (⌊((0 : Int) : ℚ) / ((40 : Int) : ℚ)⌋ - ((3 : Nat) : Int)) :=
  ⟨by decide, (C1_fixed_mode_closed_form 0 600 40 10000 3 (by decide)).1⟩

/-- C9: in fixed-height mode, with itemHeight > 0 and itemsCount, overscan,
viewportHeight held fixed, startIndex and endIndex are monotonically
non-decreasing in the scroll offset. -/
theorem C9_fixed_mode_monotone (itemHeight : Int) (itemsCount overscan : Nat)
    (viewportHeight s1 s2 : Int) (hh : 0 < itemHeight) (hs : s1 ≤ s2) :
    (fixedWindow itemHeight itemsCount overscan s1 viewportHeight).startIndex
      ≤ (fixedWindow itemHeight itemsCount overscan s2 viewportHeight).startIndex
    ∧ (fixedWindow itemHeight itemsCount overscan s1 viewportHeight).endIndex
      ≤ (fixedWindow itemHeight itemsCount overscan s2 viewportHeight).endIndex := by
  constructor
  · rw [fixedWindow_startIndex, fixedWindow_startIndex]
    have := jsFloorDiv_mono hh hs
    omega
  · rw [fixedWindow_endIndex, fixedWindow_endIndex]
    have := jsCeilDiv_mono hh
      (show s1 + viewportHeight ≤ s2 + viewportHeight by omega)
    omega

/-- Witness for C9 at itemHeight=40, itemsCount=10000, overscan=3,
viewportHeight=600, scroll offsets 100 ≤ 500. -/
theorem C9_fixed_mode_monotone_witness :
    (0 : Int) < 40 ∧ (100 : Int) ≤ 500
    ∧ (fixedWindow 40 10000 3 100 600).startIndex
        ≤ (fixedWindow 40 10000 3 500 600).startIndex
    ∧ (fixedWindow 40 10000 3 100 600).endIndex
        ≤ (fixedWindow 40 10000 3 500 600).endIndex :=
  ⟨by decide, by decide,
    (C9_fixed_mode_monotone 40 10000 3 600 100 500 (by decide) (by decide)).1,
    (C9_fixed_mode_monotone 40 10000 3 600 100 500 (by decide) (by decide)).2⟩

/-- C7: construction fails with the descriptive error exactly when neither
itemHeight nor estimateItemHeight is supplied; when at least one is supplied,
validation succeeds instead of raising. -/
theorem C7_validate_props_error_iff (itemHeight estimateItemHeight : Option (Int → Int)) :
    (validateProps itemHeight estimateItemHeight =
        Except.error "You must pass either itemHeight or estimateItemHeight props"
      ↔ (itemHeight = none ∧ estimateItemHeight = none))
    ∧ (validateProps itemHeight estimateItemHeight = Except.ok ()
      ↔ (itemHeight ≠ none ∨ estimateItemHeight ≠ none)) := by
  cases itemHeight <;> cases estimateItemHeight <;> simp [validateProps]

/-- C8: a measurement report whose index identifier is missing or unparsable
(`parseInt` yields NaN on the `data-index` attribute, which `getAttribute`
defaults to `""` when absent) is dropped: the height cache is returned
entirely unchanged, so subsequent computations keep using the prior cached or
estimated heights.  (The `console.error` warning is a log side effect outside
the embedding; totality of `measureElement` is the no-crash part.) -/
theorem C8_invalid_report_leaves_cache (K : Type) [DecidableEq K]
    (getItemKey : Int → K) (cache : K → Option Int) (element : ElementModel)
    (hbad : jsParseInt (element.dataIndex.getD "") = none) :
    measureElement getItemKey cache (some element) = cache := by
  simp [measureElement, hbad]

/-- Witness for C8: an element with no data-index attribute is dropped. -/
theorem C8_invalid_report_leaves_cache_witness :
    jsParseInt (((none : Option String)).getD "") = none
    ∧ measureElement (fun z => z.toNat) (fun _ => (none : Option Int))
        (some { dataIndex := none, rectHeight := 123 }) = (fun _ => (none : Option Int)) :=
  ⟨by decide,
    C8_invalid_report_leaves_cache Nat (fun z => z.toNat) (fun _ => none)
      { dataIndex := none, rectHeight := 123 } (by decide)⟩

/-- C6: in dynamic mode, after a valid measurement report stores H under the
item's key, the cache holds H at that key, and a subsequent `getItemHeight(i)`
returns exactly H, not the estimator's value — for every estimator.  The
window recomputation (`dynWindow`) is a pure function that never writes the
cache, so intervening recomputations cannot disturb this. -/
theorem C6_measured_height_round_trip (K : Type) [DecidableEq K]
    (getItemKey : Int → K) (cache : K → Option Int) (estimateItemHeight : Int → Int)
    (element : ElementModel) (i : Int)
    (hgood : jsParseInt (element.dataIndex.getD "") = some i) :
    measureElement getItemKey cache (some element) (getItemKey i)
        = some element.rectHeight
    ∧ getItemHeight none getItemKey (measureElement getItemKey cache (some element))
        estimateItemHeight i = element.rectHeight := by
  have hupd : measureElement getItemKey cache (some element) =
      Function.update cache (getItemKey i) (some element.rectHeight) := by
    simp [measureElement, hgood]
  rw [hupd]
  constructor
  · exact Function.update_same _ _ _
  · simp [getItemHeight, Function.update_same]

/-- Witness for C6: report height 80 for index 5, then read it back. -/
theorem C6_measured_height_round_trip_witness :
    jsParseInt ((some "5").getD "") = some 5
    ∧ measureElement (fun z => z.toNat) (fun _ => (none : Option Int))
        (some { dataIndex := some "5", rectHeight := 80 }) ((5 : Int).toNat) = some 80
    ∧ getItemHeight none (fun z => z.toNat)
        (measureElement (fun z => z.toNat) (fun _ => (none : Option Int))
          (some { dataIndex := some "5", rectHeight := 80 }))
        (fun _ => 40) 5 = 80 :=
  ⟨by decide,
    (C6_measured_height_round_trip Nat (fun z => z.toNat) (fun _ => none) (fun _ => 40)
      { dataIndex := some "5", rectHeight := 80 } 5 (by decide)).1,
    (C6_measured_height_round_trip Nat (fun z => z.toNat) (fun _ => none) (fun _ => 40)
      { dataIndex := some "5", rectHeight := 80 } 5 (by decide)).2⟩

/-- C10: a valid measurement report for index i modifies only the cache entry
for getItemKey(i) — every other key reads as before — and a second report for
the same key overwrites the first (last writer wins). -/
theorem C10_report_frame_effect (K : Type) [DecidableEq K] (getItemKey : Int → K)
    (cache : K → Option Int) (element : ElementModel) (i : Int)
    (hgood : jsParseInt (element.dataIndex.getD "") = some i) :
    (∀ k2, k2 ≠ getItemKey i →
      measureElement getItemKey cache (some element) k2 = cache k2)
    ∧ (∀ element2 : ElementModel,
        jsParseInt (element2.dataIndex.getD "") = some i →
        measureElement getItemKey (measureElement getItemKey cache (some element))
          (some element2) (getItemKey i) = some element2.rectHeight) := by
  constructor
  · intro k2 hk2
    simp [measureElement, hgood, Function.update_noteq hk2]
  · intro element2 hgood2
    simp [measureElement, hgood, hgood2, Function.update_same]

/-- Witness for C10: reporting index 2 leaves key 5 untouched, and a second
report for index 2 overwrites the first. -/
theorem C10_report_frame_effect_witness :
    jsParseInt ((some "2").getD "") = some 2
    ∧ (5 : Nat) ≠ (2 : Int).toNat
    ∧ measureElement (fun z => z.toNat) (fun _ => (none : Option Int))
        (some { dataIndex := some "2", rectHeight := 70 }) 5 = none
    ∧ measureElement (fun z => z.toNat)
        (measureElement (fun z => z.toNat) (fun _ => (none : Option Int))
          (some { dataIndex := some "2", rectHeight := 70 }))
        (some { dataIndex := some "2", rectHeight := 99 }) ((2 : Int).toNat) = some 99 :=
  ⟨by decide, by decide,
    (C10_report_frame_effect Nat (fun z => z.toNat) (fun _ => none)
      { dataIndex := some "2", rectHeight := 70 } 2 (by decide)).1 5 (by decide),
    (C10_report_frame_effect Nat (fun z => z.toNat) (fun _ => none)
      { dataIndex := some "2", rectHeight := 70 } 2 (by decide)).2
      { dataIndex := some "2", rectHeight := 99 } (by decide)⟩

/-- C2 counterexample: the dynamic scan has no defaulting after the loop.
With itemsCount=1, height 40, scrollOffset=0, viewportHeight=600 the scan
completes without any row bottom reaching scrollOffset+viewportHeight
(content shorter than the viewport), yet the returned endIndex is -1, not
itemsCount-1 = 0.  And with scrollOffset=100, viewportHeight=0, no row bottom
exceeds the scrollOffset and the returned startIndex is -1, not 0. -/
theorem C2_counterexample :
    (∀ i, i < 1 → prefixHeight (fun _ => 40) (i + 1) < 0 + 600)
    ∧ (dynWindow (fun z => z.toNat) (fun _ => 40) 1 3 0 600).endIndex = -1
    ∧ (dynWindow (fun z => z.toNat) (fun _ => 40) 1 3 0 600).endIndex ≠ ((1 : Nat) : Int) - 1
    ∧ (∀ i, i < 1 → prefixHeight (fun _ => 40) (i + 1) ≤ 100)
    ∧ (dynWindow (fun z => z.toNat) (fun _ => 40) 1 3 100 0).startIndex = -1
    ∧ (dynWindow (fun z => z.toNat) (fun _ => 40) 1 3 100 0).startIndex ≠ 0 := by
  decide

/-- C2 (amended): in dynamic-height mode, if the linear scan completes without
any row's offsetTop+height reaching scrollOffset+viewportHeight, the returned
endIndex stays the sentinel -1 (not itemsCount-1) and the returned virtualItems
list is empty; and if no row's offsetTop+height exceeds scrollOffset, the
returned startIndex stays the sentinel -1 (not 0). -/
theorem C2_dyn_scan_sentinel_defaults (K : Type) (getItemKey : Int → K)
    (gih : Int → Int) (itemsCount overscan : Nat) (scrollOffset viewportHeight : Int) :
    ((∀ i, i < itemsCount →
        prefixHeight gih (i + 1) < scrollOffset + viewportHeight) →
      (dynWindow getItemKey gih itemsCount overscan scrollOffset viewportHeight).endIndex
          = -1
      ∧ (dynWindow getItemKey gih itemsCount overscan
          scrollOffset viewportHeight).virtualItems = [])
    ∧ ((∀ i, i < itemsCount → prefixHeight gih (i + 1) ≤ scrollOffset) →
      (dynWindow getItemKey gih itemsCount overscan scrollOffset viewportHeight).startIndex
          = -1) := by
  constructor
  · intro hall
    have he : (dynWindow getItemKey gih itemsCount overscan
        scrollOffset viewportHeight).endIndex = -1 :=
      dynLoop_endIndex_of_no_trigger getItemKey gih scrollOffset
        (scrollOffset + viewportHeight) itemsCount overscan itemsCount hall
    exact ⟨he, dynWindow_virtualItems_of_endIndex_neg_one getItemKey gih
      itemsCount overscan scrollOffset viewportHeight he⟩
  · intro hall
    exact dynLoop_startIndex_of_no_trigger getItemKey gih scrollOffset
      (scrollOffset + viewportHeight) itemsCount overscan itemsCount hall

/-- Witness for the amended C2 at itemsCount=1, height 40, scrollOffset=100,
viewportHeight=0: both scan tests never fire, and both indices come back -1. -/
theorem C2_dyn_scan_sentinel_defaults_witness :
    (∀ i, i < 1 → prefixHeight (fun _ => 40) (i + 1) < 100 + 0)
    ∧ (∀ i, i < 1 → prefixHeight (fun _ => 40) (i + 1) ≤ 100)
    ∧ (dynWindow (fun z => z.toNat) (fun _ => 40) 1 3 100 0).endIndex = -1
    ∧ (dynWindow (fun z => z.toNat) (fun _ => 40) 1 3 100 0).virtualItems = []
    ∧ (dynWindow (fun z => z.toNat) (fun _ => 40) 1 3 100 0).startIndex = -1 :=
  ⟨by decide, by decide,
    ((C2_dyn_scan_sentinel_defaults Nat (fun z => z.toNat) (fun _ => 40) 1 3 100 0).1
      (by decide)).1,
    ((C2_dyn_scan_sentinel_defaults Nat (fun z => z.toNat) (fun _ => 40) 1 3 100 0).1
      (by decide)).2,
    (C2_dyn_scan_sentinel_defaults Nat (fun z => z.toNat) (fun _ => 40) 1 3 100 0).2
      (by decide)⟩

/-- C4 counterexample: with itemsCount = 1 > 0, the dynamic window at
scrollOffset=0, viewportHeight=600 (content shorter than the viewport) returns
startIndex=0 but endIndex=-1: the sentinel -1 appears in the returned result
and 0 ≤ startIndex ≤ endIndex fails. -/
theorem C4_counterexample :
    0 < (1 : Nat)
    ∧ (dynWindow (fun z => z.toNat) (fun _ => 40) 1 3 0 600).startIndex = 0
    ∧ (dynWindow (fun z => z.toNat) (fun _ => 40) 1 3 0 600).endIndex = -1
    ∧ ¬ ((dynWindow (fun z => z.toNat) (fun _ => 40) 1 3 0 600).startIndex
          ≤ (dynWindow (fun z => z.toNat) (fun _ => 40) 1 3 0 600).endIndex) := by
  decide

/-- C4 (amended): the invariant 0 ≤ startIndex ≤ endIndex ≤ itemsCount-1 holds
for the fixed-height mode whenever 0 ≤ scrollOffset < itemHeight*itemsCount and
viewportHeight ≥ 0, and for the dynamic mode whenever viewportHeight > 0 and
some row's offsetTop+height reaches scrollOffset+viewportHeight; when the scan
triggers never fire, the sentinel -1 does appear in the returned result (see
the counterexample). -/
theorem C4_range_invariant_amended :
    (∀ (itemHeight scrollOffset viewportHeight : Int) (itemsCount overscan : Nat),
      0 < itemHeight → 0 ≤ scrollOffset →
      scrollOffset < itemHeight * (itemsCount : Int) → 0 ≤ viewportHeight →
      0 ≤ (fixedWindow itemHeight itemsCount overscan
            scrollOffset viewportHeight).startIndex
      ∧ (fixedWindow itemHeight itemsCount overscan
            scrollOffset viewportHeight).startIndex
          ≤ (fixedWindow itemHeight itemsCount overscan
            scrollOffset viewportHeight).endIndex
      ∧ (fixedWindow itemHeight itemsCount overscan
            scrollOffset viewportHeight).endIndex ≤ (itemsCount : Int) - 1)
    ∧ (∀ (K : Type) (getItemKey : Int → K) (gih : Int → Int)
        (itemsCount overscan : Nat) (scrollOffset viewportHeight : Int),
      0 < viewportHeight →
      (∃ i, i < itemsCount ∧
        scrollOffset + viewportHeight ≤ prefixHeight gih (i + 1)) →
      0 ≤ (dynWindow getItemKey gih itemsCount overscan
            scrollOffset viewportHeight).startIndex
      ∧ (dynWindow getItemKey gih itemsCount overscan
            scrollOffset viewportHeight).startIndex
          ≤ (dynWindow getItemKey gih itemsCount overscan
            scrollOffset viewportHeight).endIndex
      ∧ (dynWindow getItemKey gih itemsCount overscan
            scrollOffset viewportHeight).endIndex ≤ (itemsCount : Int) - 1) := by
  constructor
  · intro itemHeight scrollOffset viewportHeight itemsCount overscan hh hs0 hlt hv
    rw [fixedWindow_startIndex, fixedWindow_endIndex]
    have h1 : 0 ≤ jsFloorDiv scrollOffset itemHeight := jsFloorDiv_nonneg hh hs0
    have h2 : jsFloorDiv scrollOffset itemHeight < (itemsCount : Int) :=
      jsFloorDiv_lt_of_lt_mul hh hlt
    have h3 : jsFloorDiv scrollOffset itemHeight
        ≤ jsCeilDiv (scrollOffset + viewportHeight) itemHeight :=
      jsFloorDiv_le_jsCeilDiv hh (by omega)
    have h4 : 0 ≤ jsCeilDiv (scrollOffset + viewportHeight) itemHeight :=
      jsCeilDiv_nonneg hh (by omega)
    refine ⟨?_, ?_, ?_⟩ <;> omega
  · intro K getItemKey gih itemsCount overscan scrollOffset viewportHeight hv hex
    obtain ⟨iw, hiw, hw⟩ := hex
    have hPex : ∃ i, scrollOffset + viewportHeight ≤ prefixHeight gih (i + 1) :=
      ⟨iw, hw⟩
    have hP1 := Nat.find_spec hPex
    have hi1n : Nat.find hPex < itemsCount :=
      lt_of_le_of_lt (Nat.find_min' hPex hw) hiw
    have hQex : ∃ i, scrollOffset < prefixHeight gih (i + 1) :=
      ⟨Nat.find hPex, by omega⟩
    have hQ0 := Nat.find_spec hQex
    have hq_le : Nat.find hQex ≤ Nat.find hPex := Nat.find_min' hQex (by omega)
    have hminQ : ∀ j, j < Nat.find hQex → prefixHeight gih (j + 1) ≤ scrollOffset :=
      fun j hj => not_lt.mp (Nat.find_min hQex hj)
    have hminP : ∀ j, j < Nat.find hPex →
        prefixHeight gih (j + 1) < scrollOffset + viewportHeight :=
      fun j hj => not_le.mp (Nat.find_min hPex hj)
    have hsw : (dynWindow getItemKey gih itemsCount overscan
        scrollOffset viewportHeight).startIndex
          = max 0 ((Nat.find hQex : Int) - (overscan : Int)) :=
      dynLoop_startIndex_of_first_trigger getItemKey gih scrollOffset
        (scrollOffset + viewportHeight) itemsCount overscan itemsCount
        (Nat.find hQex) (lt_of_le_of_lt hq_le hi1n) hQ0 hminQ
    have hew : (dynWindow getItemKey gih itemsCount overscan
        scrollOffset viewportHeight).endIndex
          = min ((itemsCount : Int) - 1) ((Nat.find hPex : Int) + (overscan : Int)) :=
      dynLoop_endIndex_of_first_trigger getItemKey gih scrollOffset
        (scrollOffset + viewportHeight) itemsCount overscan (by omega) itemsCount
        (Nat.find hPex) hi1n hP1 hminP
    rw [hsw, hew]
    have hcast : (Nat.find hQex : Int) ≤ (Nat.find hPex : Int) := by
      exact_mod_cast hq_le
    have hcast2 : (Nat.find hPex : Int) < (itemsCount : Int) := by
      exact_mod_cast hi1n
    refine ⟨?_, ?_, ?_⟩ <;> omega

/-- Witness for the amended C4: the fixed part at itemHeight=40,
itemsCount=10000, overscan=3, scrollOffset=100, viewportHeight=600, and the
dynamic part at three rows of height 40, overscan=1, scrollOffset=10,
viewportHeight=50. -/
theorem C4_range_invariant_amended_witness :
    ((0 : Int) < 40 ∧ (0 : Int) ≤ 100 ∧ (100 : Int) < 40 * ((10000 : Nat) : Int)
      ∧ (0 : Int) ≤ 600
      ∧ 0 ≤ (fixedWindow 40 10000 3 100 600).startIndex
      ∧ (fixedWindow 40 10000 3 100 600).startIndex
          ≤ (fixedWindow 40 10000 3 100 600).endIndex
      ∧ (fixedWindow 40 10000 3 100 600).endIndex ≤ ((10000 : Nat) : Int) - 1)
    ∧ ((0 : Int) < 50
      ∧ (∃ i, i < 3 ∧ (10 : Int) + 50 ≤ prefixHeight (fun _ => 40) (i + 1))
      ∧ 0 ≤ (dynWindow (fun z => z.toNat) (fun _ => 40) 3 1 10 50).startIndex
      ∧ (dynWindow (fun z => z.toNat) (fun _ => 40) 3 1 10 50).startIndex
          ≤ (dynWindow (fun z => z.toNat) (fun _ => 40) 3 1 10 50).endIndex
      ∧ (dynWindow (fun z => z.toNat) (fun _ => 40) 3 1 10 50).endIndex
          ≤ ((3 : Nat) : Int) - 1) :=
  ⟨⟨by decide, by decide, by decide, by decide,
    (C4_range_invariant_amended.1 40 100 600 10000 3 (by decide) (by decide)
      (by decide) (by decide)).1,
    (C4_range_invariant_amended.1 40 100 600 10000 3 (by decide) (by decide)
      (by decide) (by decide)).2.1,
    (C4_range_invariant_amended.1 40 100 600 10000 3 (by decide) (by decide)
      (by decide) (by decide)).2.2⟩,
   ⟨by decide, ⟨1, by decide, by decide⟩,
    (C4_range_invariant_amended.2 Nat (fun z => z.toNat) (fun _ => 40) 3 1 10 50
      (by decide) ⟨1, by decide, by decide⟩).1,
    (C4_range_invariant_amended.2 Nat (fun z => z.toNat) (fun _ => 40) 3 1 10 50
      (by decide) ⟨1, by decide, by decide⟩).2.1,
    (C4_range_invariant_amended.2 Nat (fun z => z.toNat) (fun _ => 40) 3 1 10 50
      (by decide) ⟨1, by decide, by decide⟩).2.2⟩⟩

/-- C5 counterexample: with no scroll element attached the effects bail out and
the state keeps scrollTop = 0, listHeight = 0, but the window computed on that
state is NOT empty: at itemsCount=10000, itemHeight=40, overscan=3 it holds
4 virtual items (indices 0..3). -/
theorem C5_counterexample :
    (unattachedFixedWindow 40 10000 3).virtualItems.length = 4
    ∧ (unattachedFixedWindow 40 10000 3).virtualItems ≠ [] := by
  decide

/-- C5 (amended): when the viewport source yields none, the engine performs no
observation (the effects return before registering anything) and the window is
computed on the initial state scrollOffset = 0, viewportHeight = 0 without
erroring — but it is NOT empty: with itemsCount > 0 the fixed mode returns
min(itemsCount-1, overscan)+1 virtual items, and the dynamic mode (first
height positive) also returns a non-empty list. -/
theorem C5_unattached_window_amended :
    (∀ (itemHeight : Int) (itemsCount overscan : Nat),
      0 < itemHeight → 0 < itemsCount →
      (unattachedFixedWindow itemHeight itemsCount overscan).virtualItems.length
        = (min ((itemsCount : Int) - 1) (overscan : Int)).toNat + 1
      ∧ (unattachedFixedWindow itemHeight itemsCount overscan).virtualItems ≠ [])
    ∧ (∀ (K : Type) (getItemKey : Int → K) (gih : Int → Int) (itemsCount overscan : Nat),
      0 < itemsCount → 0 < gih 0 →
      (unattachedDynWindow getItemKey gih itemsCount overscan).virtualItems ≠ []) := by
  constructor
  · intro itemHeight itemsCount overscan hh hn
    have hlen : (unattachedFixedWindow itemHeight itemsCount overscan).virtualItems.length
        = ((fixedWindow itemHeight itemsCount overscan 0 0).endIndex + 1
            - (fixedWindow itemHeight itemsCount overscan 0 0).startIndex).toNat :=
      fixedWindow_virtualItems_length itemHeight itemsCount overscan 0 0
    rw [fixedWindow_startIndex, fixedWindow_endIndex, jsFloorDiv_zero_left,
      show ((0 : Int) + 0) = 0 by omega, jsCeilDiv_zero_left] at hlen
    constructor
    · rw [hlen]
      omega
    · apply List.length_pos.mp
      rw [hlen]
      omega
  · intro K getItemKey gih itemsCount overscan hn hg
    have hpre1 : 0 < prefixHeight gih 1 := by rw [prefixHeight_one]; exact hg
    have hs2 : (dynLoop getItemKey gih 0 (0 + 0) itemsCount overscan
        itemsCount).startIndex = max 0 (((0 : Nat) : Int) - (overscan : Int)) :=
      dynLoop_startIndex_of_first_trigger getItemKey gih 0 (0 + 0) itemsCount
        overscan itemsCount 0 hn (by simpa using hpre1)
        (fun j hj => absurd hj (Nat.not_lt_zero j))
    have he2 : (dynLoop getItemKey gih 0 (0 + 0) itemsCount overscan
        itemsCount).endIndex
          = min ((itemsCount : Int) - 1) (((0 : Nat) : Int) + (overscan : Int)) :=
      dynLoop_endIndex_of_first_trigger getItemKey gih 0 (0 + 0) itemsCount
        overscan hn itemsCount 0 hn (by simpa using hpre1.le)
        (fun j hj => absurd hj (Nat.not_lt_zero j))
    have hlenAll : (dynLoop getItemKey gih 0 (0 + 0) itemsCount overscan
        itemsCount).allItems.length = itemsCount :=
      dynLoop_allItems_length getItemKey gih 0 (0 + 0) itemsCount overscan itemsCount
    have hv : (unattachedDynWindow getItemKey gih itemsCount overscan).virtualItems
        = jsSlice
            ((dynLoop getItemKey gih 0 (0 + 0) itemsCount overscan itemsCount).allItems)
            ((dynLoop getItemKey gih 0 (0 + 0) itemsCount overscan itemsCount).startIndex)
            ((dynLoop getItemKey gih 0 (0 + 0) itemsCount overscan
              itemsCount).endIndex + 1) := rfl
    apply List.length_pos.mp
    rw [hv, hs2, he2,
      jsSlice_length_of_nonneg _ _ _ (by omega)
        (by omega : (0 : Int) ≤ min ((itemsCount : Int) - 1)
          (((0 : Nat) : Int) + (overscan : Int)) + 1),
      hlenAll]
    omega

/-- Witness for the amended C5 at itemHeight=40, itemsCount=10000, overscan=3
(fixed) and three rows of height 40, overscan=2 (dynamic). -/
theorem C5_unattached_window_amended_witness :
    ((0 : Int) < 40 ∧ 0 < (10000 : Nat)
      ∧ (unattachedFixedWindow 40 10000 3).virtualItems.length
          = (min (((10000 : Nat) : Int) - 1) ((3 : Nat) : Int)).toNat + 1
      ∧ (unattachedFixedWindow 40 10000 3).virtualItems ≠ [])
    ∧ (0 < (3 : Nat) ∧ (0 : Int) < 40
      ∧ (unattachedDynWindow (fun z => z.toNat) (fun _ => 40) 3 2).virtualItems ≠ []) :=
  ⟨⟨by decide, by decide,
    (C5_unattached_window_amended.1 40 10000 3 (by decide) (by decide)).1,
    (C5_unattached_window_amended.1 40 10000 3 (by decide) (by decide)).2⟩,
   ⟨by decide, by decide,
    C5_unattached_window_amended.2 Nat (fun z => z.toNat) (fun _ => 40) 3 2
      (by decide) (by decide)⟩⟩

/-- C3: in dynamic mode, for every cache state and estimator, the returned
totalHeight is the sum of the cache-or-estimate heights of all itemsCount rows,
and the offsetTop of the row at index i is the sum of the heights of rows
0..i-1; in fixed mode the same holds with every height equal to itemHeight. -/
theorem C3_total_height_and_offsets :
    (∀ (K : Type) (getItemKey : Int → K) (measurementCache : K → Option Int)
        (estimateItemHeight : Int → Int) (itemsCount overscan : Nat)
        (scrollOffset viewportHeight : Int),
      (dynWindow getItemKey
          (getItemHeight none getItemKey measurementCache estimateItemHeight)
          itemsCount overscan scrollOffset viewportHeight).totalHeight
        = prefixHeight
            (getItemHeight none getItemKey measurementCache estimateItemHeight)
            itemsCount
      ∧ (dynWindow getItemKey
          (getItemHeight none getItemKey measurementCache estimateItemHeight)
          itemsCount overscan scrollOffset viewportHeight).allItems.length = itemsCount
      ∧ ∀ (i : Nat) (hi : i < (dynWindow getItemKey
            (getItemHeight none getItemKey measurementCache estimateItemHeight)
            itemsCount overscan scrollOffset viewportHeight).allItems.length),
          ((dynWindow getItemKey
            (getItemHeight none getItemKey measurementCache estimateItemHeight)
            itemsCount overscan scrollOffset viewportHeight).allItems.get ⟨i, hi⟩).offsetTop
            = prefixHeight
                (getItemHeight none getItemKey measurementCache estimateItemHeight) i)
    ∧ (∀ (itemHeight : Int) (itemsCount overscan : Nat) (scrollOffset viewportHeight : Int),
      (fixedWindow itemHeight itemsCount overscan
          scrollOffset viewportHeight).totalHeight
        = ((List.range itemsCount).map (fun _ => itemHeight)).sum
      ∧ ∀ item ∈ (fixedWindow itemHeight itemsCount overscan
            scrollOffset viewportHeight).virtualItems,
          item.offsetTop
            = ((List.range item.index.toNat).map (fun _ => itemHeight)).sum) := by
  constructor
  · intro K getItemKey measurementCache estimateItemHeight itemsCount overscan
      scrollOffset viewportHeight
    refine ⟨dynLoop_totalHeight _ _ _ _ _ _ _,
      dynLoop_allItems_length _ _ _ _ _ _ _, ?_⟩
    intro i hi
    have hitems : (dynWindow getItemKey
        (getItemHeight none getItemKey measurementCache estimateItemHeight)
        itemsCount overscan scrollOffset viewportHeight).allItems
          = (List.range itemsCount).map (fun (j : Nat) =>
              { key := getItemKey (j : Int), index := j,
                height := getItemHeight none getItemKey measurementCache
                  estimateItemHeight (j : Int),
                offsetTop := prefixHeight
                  (getItemHeight none getItemKey measurementCache estimateItemHeight) j
                : Row K }) :=
      dynLoop_allItems _ _ _ _ _ _ _
    simp only [List.get_eq_getElem]
    rw [List.getElem_of_eq hitems]
    simp

  · intro itemHeight itemsCount overscan scrollOffset viewportHeight
    constructor
    · rw [fixedWindow_totalHeight, List.map_const', List.sum_replicate,
        List.length_range, nsmul_eq_mul]
      ring
    · intro item hmem
      simp only [fixedWindow, List.mem_map] at hmem
      obtain ⟨k, hk, rfl⟩ := hmem
      dsimp only
      rw [List.map_const', List.sum_replicate, List.length_range, nsmul_eq_mul]
      have hst : (0 : Int)
          ≤ max 0 (jsFloorDiv scrollOffset itemHeight - (overscan : Int)) :=
        le_max_left _ _
      rw [Int.toNat_of_nonneg (by omega)]

/-- Witness for C3: two rows with the first height measured as 50 and the
second estimated as 40, and a fixed window of five rows of height 40. -/
theorem C3_total_height_and_offsets_witness :
    ((dynWindow (fun z => z.toNat)
        (getItemHeight none (fun z => z.toNat)
          (fun k => if k = 0 then some 50 else none) (fun _ => 40))
        2 0 0 100).totalHeight
      = prefixHeight
          (getItemHeight none (fun z => z.toNat)
            (fun k => if k = 0 then some 50 else none) (fun _ => 40)) 2
    ∧ 1 < (dynWindow (fun z => z.toNat)
        (getItemHeight none (fun z => z.toNat)
          (fun k => if k = 0 then some 50 else none) (fun _ => 40))
        2 0 0 100).allItems.length
    ∧ ((dynWindow (fun z => z.toNat)
        (getItemHeight none (fun z => z.toNat)
          (fun k => if k = 0 then some 50 else none) (fun _ => 40))
        2 0 0 100).allItems.get ⟨1, by decide⟩).offsetTop
      = prefixHeight
          (getItemHeight none (fun z => z.toNat)
            (fun k => if k = 0 then some 50 else none) (fun _ => 40)) 1)
    ∧ ((fixedWindow 40 5 3 0 600).totalHeight
        = ((List.range 5).map (fun _ => (40 : Int))).sum
      ∧ ({ index := 0, offsetTop := 0 : FixedItem})
          ∈ (fixedWindow 40 5 3 0 600).virtualItems
      ∧ ({ index := 0, offsetTop := 0 : FixedItem}).offsetTop
        = ((List.range ({ index := 0, offsetTop := 0 : FixedItem}).index.toNat).map
            (fun _ => (40 : Int))).sum) :=
  ⟨⟨(C3_total_height_and_offsets.1 Nat (fun z => z.toNat)
      (fun k => if k = 0 then some 50 else none) (fun _ => 40) 2 0 0 100).1,
    by decide,
    (C3_total_height_and_offsets.1 Nat (fun z => z.toNat)
      (fun k => if k = 0 then some 50 else none) (fun _ => 40) 2 0 0 100).2.2
      1 (by decide)⟩,
   ⟨(C3_total_height_and_offsets.2 40 5 3 0 600).1,
    by decide,
    (C3_total_height_and_offsets.2 40 5 3 0 600).2
      { index := 0, offsetTop := 0 } (by decide)⟩⟩

end VirtualScroll
